import Mathlib

/-!
Shallow embedding of the string-matching engine of
`src/osmium/util/string_matcher.hpp` (class `osmium::StringMatcher`).

Strings are modelled as lists of byte values (`List Nat`), with `0` playing
the role of the NUL terminator of C strings.  A `const char*` argument
denotes the bytes up to (excluding) the first NUL, so the payload `match`
functions below receive that NUL-free byte sequence; the `std::string`
overload of `operator()` forwards `c_str()`, which is modelled by
truncating at the first NUL (`cstr`).
-/

namespace osmium

/-- A byte of a C++ string; the value 0 is the NUL terminator byte. -/
abbrev Byte := Nat

/-- The byte sequence a `const char*` pointing at the buffer of `s` denotes:
the bytes of `s` that precede its first NUL byte.  This models both what
`std::string::c_str()` exposes to C-string consumers (`std::strcmp`,
`std::strstr`) and what the implicit `const char*` to `std::string`
conversion copies. -/
def cstr (s : List Byte) : List Byte := s.takeWhile (fun b => b != 0)

/-- A byte string with no embedded NUL byte; such strings survive the round
trip through a `const char*` unchanged. -/
def NulFree (s : List Byte) : Prop := ∀ b ∈ s, b ≠ 0

instance (s : List Byte) : Decidable (NulFree s) :=
  List.decidableBAll _ s

/-- Model of an already-compiled regular expression (`std::regex` value):
an opaque search capability, as the spec describes the consumed regex
capability.  `StringMatcher::regex::match` calls
`std::regex_search(test_string, m_regex)`, which is `search` here. -/
structure CompiledRegex where
  search : List Byte → Bool

/-- Error raised by the regex capability when the pattern text cannot be
compiled (in the source, `std::regex_error` thrown by the `std::regex`
constructor). -/
inductive InvalidPattern where
  | invalid
deriving DecidableEq

/-- The `osmium::StringMatcher` value: a variant (`matcher_type`) over the
payload classes `always_false`, `always_true`, `equal`, `prefix`,
`substring`, `regex` and `list` (source lines 285-301).  Each constructor
carries exactly the data its source class owns.  The source class `prefix`
is rendered `prefix_m` and `regex` is rendered `regex_m` because those
identifiers are Lean keywords or unusable here. -/
inductive StringMatcher where
  | always_false
  | always_true
  | equal (m_str : List Byte)
  | prefix_m (m_str : List Byte)
  | substring (m_str : List Byte)
  | regex_m (m_regex : CompiledRegex)
  | list (m_strings : List (List Byte))

/-- Dispatch of `StringMatcher::operator()(const char* str)` (line 431):
`std::visit(match_visitor{str}, m_matcher)` routes to the active payload's
`match`.  The argument `ts` is the byte sequence the `const char*` denotes.
Per payload (source lines in parentheses):
* `always_false::match` (101-103): `return false;`
* `always_true::match` (119-121): `return true;`
* `equal::match` (147-149): `!std::strcmp(m_str.c_str(), test_string)` —
  `c_str()` truncates the stored string at its first NUL, so this compares
  `cstr m_str` with `ts` for equality.
* `prefix::match` (175-177):
  `m_str.compare(0, npos, test_string, 0, m_str.size()) == 0` — the
  five-argument overload converts `test_string` to `std::string` and
  compares all of `m_str` against the first `m_str.size()` characters of
  the input, i.e. `m_str = ts.take m_str.length`.
* `substring::match` (203-205):
  `std::strstr(test_string, m_str.c_str()) != nullptr` — true iff
  `cstr m_str` occurs contiguously inside `ts`.
* `regex::match` (228-230): `std::regex_search(test_string, m_regex)`.
* `list::match` (265-270): `std::any_of` over `m_strings` testing
  `s == test_string` (full `std::string` equality against the C string). -/
def StringMatcher.matchCStr : StringMatcher → List Byte → Bool
  | .always_false, _ => false
  | .always_true, _ => true
  | .equal v, ts => decide (cstr v = ts)
  | .prefix_m p, ts => decide (p = ts.take p.length)
  | .substring v, ts => decide (cstr v <:+: ts)
  | .regex_m r, ts => r.search ts
  | .list vs, ts => vs.any (fun s => s == ts)

/-- The overload `StringMatcher::operator()(const std::string& str)`
(lines 442-444): `return operator()(str.c_str());` — the owned string is
viewed as a C string, i.e. truncated at its first NUL byte. -/
def StringMatcher.matchStdStr (m : StringMatcher) (s : List Byte) : Bool :=
  m.matchCStr (cstr s)

/-- The default constructor `StringMatcher()` (lines 351-353):
`m_matcher(always_false{})`. -/
def StringMatcher.mkDefault : StringMatcher := .always_false

/-- The constructor `StringMatcher(bool result)` (lines 364-369):
initializes with `always_false{}` and reassigns `always_true{}` when
`result` is true. -/
def StringMatcher.ofBool (result : Bool) : StringMatcher :=
  if result then .always_true else .always_false

/-- The constructor `StringMatcher(const std::string& str)` (lines 387-389):
`m_matcher(equal{str})`. -/
def StringMatcher.ofString (s : List Byte) : StringMatcher := .equal s

/-- The constructor `StringMatcher(const std::regex& aregex)`
(lines 398-400): `m_matcher(regex{aregex})`.  It takes an
already-compiled pattern; compilation happens before this constructor
runs. -/
def StringMatcher.ofRegex (r : CompiledRegex) : StringMatcher := .regex_m r

/-- The constructor `StringMatcher(const std::vector<std::string>& strings)`
(lines 410-412): `m_matcher(list{strings})`.  The default constructor
`list()` of the payload (line 249) leaves `m_strings` empty, i.e.
`ofList []`. -/
def StringMatcher.ofList (strings : List (List Byte)) : StringMatcher :=
  .list strings

/-- The builder `list::add_string` (lines 255-263): appends `str` to
`m_strings` (`emplace_back`/`push_back`) and returns the updated list
(`return *this;`) for chaining.  The result is the new payload contents. -/
def add_string (m_strings : List (List Byte)) (str : List Byte) :
    List (List Byte) :=
  m_strings ++ [str]

/-- Modelled from the spec: the regex capability's
`compile(pattern) -> Result<CompiledPattern, InvalidPattern>` step (section
6).  In the source this is the `std::regex` constructor, which is external
to the repository; a `StringMatcher` with a regex payload can only come
into existence from a successfully compiled pattern, because
`StringMatcher(const std::regex&)` (lines 398-400) already requires the
compiled value.  Constructing a matcher from pattern text therefore
composes `compile` with `StringMatcher.ofRegex`. -/
def matcherOfPattern (compile : List Byte → Except InvalidPattern CompiledRegex)
    (pat : List Byte) : Except InvalidPattern StringMatcher :=
  (compile pat).map StringMatcher.ofRegex

/-- ASCII byte sequence of a Lean string literal, for writing the byte
strings the diagnostic printer emits. -/
def str (s : String) : List Byte := s.data.map Char.toNat

/-- The diagnostic printer: `print_visitor` dispatch of
`StringMatcher::print` (lines 446-453) over the payloads' `print` member
functions.  An `std::ostream` is modelled as the list of bytes written so
far; each `out << x` appends.  Per payload:
* `always_false::print` (105-108): `out << "always_false"`.
* `always_true::print` (123-126): `out << "always_true"`.
* `equal::print` (151-154): `out << "equal[" << m_str << ']'`.
* `prefix::print` (179-182): `out << "prefix[" << m_str << ']'`.
* `substring::print` (207-210): `out << "substring[" << m_str << ']'`.
* `regex::print` (232-235): `out << "regex"` — pattern text omitted.
* `list::print` (272-279): `out << "list["`, then for each stored string
  `out << '[' << s << ']'`, then `out << ']'`. -/
def StringMatcher.printTo : StringMatcher → List Byte → List Byte
  | .always_false, out => out ++ str "always_false"
  | .always_true, out => out ++ str "always_true"
  | .equal v, out => out ++ str "equal[" ++ v ++ str "]"
  | .prefix_m v, out => out ++ str "prefix[" ++ v ++ str "]"
  | .substring v, out => out ++ str "substring[" ++ v ++ str "]"
  | .regex_m _, out => out ++ str "regex"
  | .list vs, out =>
      (vs.foldl (fun acc s => acc ++ str "[" ++ s ++ str "]")
        (out ++ str "list[")) ++ str "]"

/-- The rendering of a matcher into an empty stream: what
`operator<<(out, matcher)` (lines 457-461) writes to a fresh stream. -/
def StringMatcher.describe (m : StringMatcher) : List Byte := m.printTo []

end osmium

namespace osmium

/-- A NUL-free byte string passes through the `const char*` view unchanged. -/
theorem cstr_of_nulFree (s : List Byte) (h : NulFree s) : cstr s = s := by
  unfold cstr
  rw [List.takeWhile_eq_self_iff]
  intro x hx
  simpa using h x hx

/-- The `const char*` view of any byte string is NUL-free. -/
theorem nulFree_cstr (s : List Byte) : NulFree (cstr s) := by
  intro b hb
  have := List.mem_takeWhile_imp hb
  simpa using this

/-- Truncating at the first NUL is idempotent. -/
theorem cstr_idem (s : List Byte) : cstr (cstr s) = cstr s :=
  cstr_of_nulFree _ (nulFree_cstr s)

/-- Bytes standing after a NUL byte do not affect the `const char*` view. -/
theorem cstr_append_nul (s t : List Byte) : cstr (s ++ 0 :: t) = cstr s := by
  induction s with
  | nil => simp [cstr]
  | cons b s ih =>
      by_cases hb : b = 0
      · simp [cstr, hb]
      · simp only [cstr, List.cons_append, List.takeWhile_cons] at *
        simp [hb, ih]

/-- The list payload's `any_of` membership test decides list membership. -/
theorem list_any_beq (vs : List (List Byte)) (x : List Byte) :
    vs.any (fun s => s == x) = true ↔ x ∈ vs := by
  simp [List.any_eq_true]

end osmium

namespace osmium

/-- C1: a Matcher holding the Equal(v) payload returns true from match(s)
if and only if s is byte-for-byte identical to the stored text v; for any
other input the match returns false. -/
theorem equal_match_iff (v s : List Byte) (hv : NulFree v) (_hs : NulFree s) :
    (StringMatcher.equal v).matchCStr s = true ↔ s = v := by
  simp only [StringMatcher.matchCStr, decide_eq_true_eq]
  rw [cstr_of_nulFree v hv]
  exact eq_comm

/-- Witness for C1 at the concrete stored text "highway". -/
theorem equal_match_iff_witness :
    (StringMatcher.equal (str "highway")).matchCStr (str "highway") = true ↔
      str "highway" = str "highway" :=
  equal_match_iff (str "highway") (str "highway") (by decide) (by decide)

/-- C2: a Matcher holding the Prefix(p) payload returns true from match(s)
iff s begins with p; in particular every input of the form p ++ t matches,
and the empty stored text matches every input. -/
theorem prefix_match_iff (p s : List Byte) :
    ((StringMatcher.prefix_m p).matchCStr s = true ↔ p <+: s)
    ∧ (∀ t, (StringMatcher.prefix_m p).matchCStr (p ++ t) = true)
    ∧ (StringMatcher.prefix_m []).matchCStr s = true := by
  refine ⟨?_, ?_, ?_⟩
  · simp only [StringMatcher.matchCStr, decide_eq_true_eq]
    exact List.prefix_iff_eq_take.symm
  · intro t
    simp only [StringMatcher.matchCStr, decide_eq_true_eq]
    exact List.prefix_iff_eq_take.mp (List.prefix_append p t)
  · simp [StringMatcher.matchCStr]

/-- C3: a Matcher holding the Substring(sub) payload returns true from
match(s) iff sub occurs contiguously anywhere within s; in particular
every input of the form a ++ sub ++ b matches, and the empty stored text
matches every input. -/
theorem substring_match_iff (sub s : List Byte) (hsub : NulFree sub) :
    ((StringMatcher.substring sub).matchCStr s = true ↔ sub <:+: s)
    ∧ (∀ a b, (StringMatcher.substring sub).matchCStr (a ++ sub ++ b) = true)
    ∧ (StringMatcher.substring []).matchCStr s = true := by
  refine ⟨?_, ?_, ?_⟩
  · simp only [StringMatcher.matchCStr, decide_eq_true_eq]
    rw [cstr_of_nulFree sub hsub]
  · intro a b
    simp only [StringMatcher.matchCStr, decide_eq_true_eq]
    rw [cstr_of_nulFree sub hsub]
    exact List.infix_append a sub b
  · simp [StringMatcher.matchCStr, cstr]

/-- Witness for C3 at the concrete stored text "b" and input "abc". -/
theorem substring_match_iff_witness :
    (StringMatcher.substring (str "b")).matchCStr (str "abc") = true :=
  ((substring_match_iff (str "b") (str "abc") (by decide)).1).mpr (by decide)

/-- C4: a Matcher holding the List(vs) payload returns true from match(x)
iff x equals at least one member of vs, compared by exact equality. -/
theorem list_match_iff (vs : List (List Byte)) (x : List Byte) :
    (StringMatcher.list vs).matchCStr x = true ↔ x ∈ vs := by
  simp only [StringMatcher.matchCStr]
  exact list_any_beq vs x

/-- C6: after appending z with the add_string builder, the list payload
matches z, even when z was absent from the sequence before. -/
theorem add_string_extends_membership (l : List (List Byte)) (z : List Byte)
    (hz : NulFree z) :
    (StringMatcher.list (add_string l z)).matchStdStr z = true := by
  simp only [StringMatcher.matchStdStr, StringMatcher.matchCStr, add_string]
  rw [cstr_of_nulFree z hz]
  simp

/-- Witness for C6: the empty list payload matches "z" after add_string. -/
theorem add_string_extends_membership_witness :
    (StringMatcher.list (add_string [] (str "z"))).matchStdStr (str "z")
      = true :=
  add_string_extends_membership [] (str "z") (by decide)

/-- C8: a default-constructed Matcher is in the AlwaysFalse state and never
matches, and the bool constructor behaves identically to the explicit
always_true/always_false payloads. -/
theorem default_and_bool_constructors (s : List Byte) :
    StringMatcher.mkDefault = StringMatcher.always_false
    ∧ StringMatcher.mkDefault.matchCStr s = false
    ∧ (StringMatcher.ofBool true).matchCStr s = true
    ∧ (StringMatcher.ofBool false).matchCStr s = false
    ∧ (StringMatcher.ofBool true).matchCStr s
        = StringMatcher.always_true.matchCStr s
    ∧ (StringMatcher.ofBool false).matchCStr s
        = StringMatcher.always_false.matchCStr s :=
  ⟨rfl, rfl, rfl, rfl, rfl, rfl⟩

/-- C9: the owned-string overload forwards the C-string view of its input,
so matching an owned string equals matching the part of it that precedes
its first NUL byte, and bytes after a NUL byte never influence the
result. -/
theorem match_ignores_after_nul (m : StringMatcher) (s t : List Byte) :
    m.matchStdStr s = m.matchCStr (cstr s)
    ∧ m.matchStdStr s = m.matchStdStr (cstr s)
    ∧ m.matchStdStr (s ++ 0 :: t) = m.matchStdStr s := by
  refine ⟨rfl, ?_, ?_⟩
  · unfold StringMatcher.matchStdStr
    rw [cstr_idem]
  · unfold StringMatcher.matchStdStr
    rw [cstr_append_nul]

/-- C10: a list payload with an empty stored sequence never matches,
whether reached through the explicit empty-vector constructor or the
payload's default constructor. -/
theorem empty_list_never_matches (s : List Byte) :
    (StringMatcher.list []).matchCStr s = false
    ∧ (StringMatcher.ofList []).matchStdStr s = false :=
  ⟨rfl, rfl⟩

/-- C5: building a matcher from pattern text goes through the regex
capability's compile step; when compilation rejects the pattern the result
is the InvalidPattern error and no StringMatcher value exists. -/
theorem regex_invalid_pattern_no_matcher
    (compile : List Byte → Except InvalidPattern CompiledRegex)
    (pat : List Byte) (e : InvalidPattern)
    (h : compile pat = .error e) :
    matcherOfPattern compile pat = .error e
    ∧ ∀ m : StringMatcher, matcherOfPattern compile pat ≠ .ok m := by
  constructor
  · simp [matcherOfPattern, h, Except.map]
  · intro m hm
    simp [matcherOfPattern, h, Except.map] at hm

/-- Witness for C5 with a compile capability that rejects every pattern. -/
theorem regex_invalid_pattern_no_matcher_witness :
    matcherOfPattern (fun _ => Except.error InvalidPattern.invalid) []
      = Except.error InvalidPattern.invalid :=
  (regex_invalid_pattern_no_matcher
    (fun _ => Except.error InvalidPattern.invalid) []
    InvalidPattern.invalid rfl).1

/-- The loop of list::print appends one bracketed entry per stored
string. -/
theorem printTo_list_foldl (vs : List (List Byte)) (out : List Byte) :
    vs.foldl (fun acc s => acc ++ str "[" ++ s ++ str "]") out
      = out ++ (vs.map (fun v => str "[" ++ v ++ str "]")).flatten := by
  induction vs generalizing out with
  | nil => simp
  | cons v vs ih =>
      rw [List.foldl_cons, ih, List.map_cons, List.flatten_cons]
      simp [List.append_assoc]

/-- C7: the diagnostic output is deterministic and follows the exact
per-payload format, with the regex pattern text omitted, and the concrete
examples equal[foo] and list[[a][b]] come out as stated. -/
theorem describe_formats :
    StringMatcher.always_false.describe = str "always_false"
    ∧ StringMatcher.always_true.describe = str "always_true"
    ∧ (∀ v, (StringMatcher.equal v).describe = str "equal[" ++ v ++ str "]")
    ∧ (∀ v, (StringMatcher.prefix_m v).describe
        = str "prefix[" ++ v ++ str "]")
    ∧ (∀ v, (StringMatcher.substring v).describe
        = str "substring[" ++ v ++ str "]")
    ∧ (∀ r, (StringMatcher.regex_m r).describe = str "regex")
    ∧ (∀ vs, (StringMatcher.list vs).describe
        = str "list["
            ++ (vs.map (fun v => str "[" ++ v ++ str "]")).flatten ++ str "]")
    ∧ (StringMatcher.equal (str "foo")).describe = str "equal[foo]"
    ∧ (StringMatcher.list [str "a", str "b"]).describe = str "list[[a][b]]" := by
  refine ⟨rfl, rfl, fun v => rfl, fun v => rfl, fun v => rfl, fun r => rfl,
    ?_, by decide, by decide⟩
  intro vs
  simp only [StringMatcher.describe, StringMatcher.printTo, printTo_list_foldl,
    List.nil_append]

end osmium
